import Mathlib

/-
Verification of skepticoin networking (local_peer.py, params.py) and
consensus test-pinned behaviour, via a shallow embedding in Lean 4.

Embedding conventions:
- Python exceptions become explicit outcome values (Option / Except).
- Side effects (socket calls, selector registration, file writes) become
  traces of explicit call markers, or explicit state passing.
- Machine integers are Nat (no overflow is relevant to these claims).
-/

namespace Skepticoin

/-- Peer direction constants, from skepticoin.networking.remote_peer
(OUTGOING, INCOMING, IRRELEVANT). -/
inductive Direction where
  | outgoing
  | incoming
  | irrelevant
  deriving DecidableEq, Repr

/-- The fields of ConnectedRemotePeer that DiskInterface.overwrite_peers
reads: host, port, direction, hello_received. -/
structure ConnectedRemotePeer where
  host : String
  port : Nat
  direction : Direction
  hello_received : Bool
  deriving DecidableEq, Repr

/-- The predicate of the list comprehension in DiskInterface.overwrite_peers:
`remote_peer.direction == OUTGOING and remote_peer.hello_received`. -/
def qualifies (p : ConnectedRemotePeer) : Bool :=
  p.direction == Direction.outgoing && p.hello_received

/-- The (host, port, direction) tuple written per qualifying peer. -/
def peerTuple (p : ConnectedRemotePeer) : String × Nat × Direction :=
  (p.host, p.port, p.direction)

/-- A Python exception escaping a disk operation. -/
inductive PyError where
  | fileNotFoundError
  deriving DecidableEq, Repr

/-- Embedding of DiskInterface.overwrite_peers as a transformer of the
peers.json file state (`none` = file absent, `some db` = file holds db).
The Python code builds `db` by comprehension; if db is non-empty it opens
peers.json in mode w and dumps the full list (the file content is replaced
in full, so the new state is exactly `some db`); otherwise it calls
os.remove("peers.json"), which raises FileNotFoundError when the file does
not exist and leaves no file either way. -/
def overwrite_peers (peers : List ConnectedRemotePeer)
    (file : Option (List (String × Nat × Direction))) :
    Except PyError Unit × Option (List (String × Nat × Direction)) :=
  let db := (peers.filter qualifies).map peerTuple
  if db.isEmpty then
    match file with
    | some _ => (Except.ok (), none)
    | none => (Except.error PyError.fileNotFoundError, none)
  else
    (Except.ok (), some db)

/-- Kind of Python exception raised by a call inside the networking code:
OSError (caught by the first except clause of
handle_remote_peer_selector_event) versus any other Exception (caught by
the second, catch-all clause). -/
inductive ExnKind where
  | osError
  | otherExn
  deriving DecidableEq, Repr

/-- The three calls inside the try block of LocalPeer.disconnect, in source
order, plus the disconnect-invocation marker used by the event handler.
Peers are identified by a Nat id. -/
inductive SysCall where
  | selectorUnregister (peer : Nat)
  | sockClose (peer : Nat)
  | handlePeerDisconnected (peer : Nat)
  deriving DecidableEq, Repr

/-- Which of the calls inside the try block of LocalPeer.disconnect raise,
modelling the environment (selector, socket, network manager). `none`
means the call succeeds. -/
structure DisconnectEnv where
  unregisterExn : Option ExnKind
  closeExn : Option ExnKind
  notifyExn : Option ExnKind

/-- Embedding of LocalPeer.disconnect. The try block runs
selector.unregister, then sock.close, then
network_manager.handle_peer_disconnected, in that order; the first call
that raises aborts the rest, and the except clause swallows every
exception (it only logs). Returns the list of calls that completed and
the exception escaping disconnect, which is always none. -/
def disconnect (peer : Nat) (env : DisconnectEnv) : List SysCall × Option ExnKind :=
  match env.unregisterExn with
  | some _ => ([], none)
  | none =>
    match env.closeExn with
    | some _ => ([SysCall.selectorUnregister peer], none)
    | none =>
      match env.notifyExn with
      | some _ => ([SysCall.selectorUnregister peer, SysCall.sockClose peer], none)
      | none => ([SysCall.selectorUnregister peer, SysCall.sockClose peer,
                  SysCall.handlePeerDisconnected peer], none)

/-- Modelled from the spec: the NetworkManager active-peer view
(skepticoin/networking/manager.py is not under src/). The manager "owns
the set of active peers" and is told about disconnects only through
handle_peer_disconnected, which removes the peer from that set; no other
call of LocalPeer.disconnect touches the view. -/
def applyCallsToActivePeers (active : List Nat) (calls : List SysCall) : List Nat :=
  calls.foldl
    (fun a c =>
      match c with
      | SysCall.handlePeerDisconnected p => a.filter (fun q => q ≠ p)
      | _ => a)
    active

/-- Invocation of LocalPeer.disconnect recorded by the event handler,
with the peer it targets and the reason string passed. -/
inductive HandlerCall where
  | disconnectCall (peer : Nat) (reason : String)
  deriving DecidableEq, Repr

/-- Behaviour of the environment during one
LocalPeer.handle_remote_peer_selector_event call: the selector mask bits,
whether sock.recv raises (and if not, whether it returned data), and
whether remote_peer.handle_receive_data / remote_peer.handle_can_send
raise. -/
structure EventEnv where
  maskRead : Bool
  maskWrite : Bool
  recvExn : Option ExnKind
  recvNonEmpty : Bool
  receiveDataExn : Option ExnKind
  canSendExn : Option ExnKind

/-- The EVENT_WRITE half of the try block of
handle_remote_peer_selector_event: if the write bit is set, call
remote_peer.handle_can_send, which may raise. `acc` carries disconnect
calls already made by the read half. -/
def eventWriteHalf (env : EventEnv) (acc : List HandlerCall) :
    List HandlerCall × Option ExnKind :=
  if env.maskWrite then
    match env.canSendExn with
    | some e => (acc, some e)
    | none => (acc, none)
  else (acc, none)

/-- The try block of handle_remote_peer_selector_event: if the read bit is
set, sock.recv; empty data means self.disconnect(remote_peer, "connection
closed remotely") and execution continues to the write half; non-empty
data goes to handle_receive_data. Any raise aborts the rest of the block.
Returns the disconnect invocations made and the exception leaving the try
block, if any. -/
def eventTryBlock (peer : Nat) (env : EventEnv) : List HandlerCall × Option ExnKind :=
  if env.maskRead then
    match env.recvExn with
    | some e => ([], some e)
    | none =>
      if env.recvNonEmpty then
        match env.receiveDataExn with
        | some e => ([], some e)
        | none => eventWriteHalf env []
      else
        eventWriteHalf env [HandlerCall.disconnectCall peer "connection closed remotely"]
  else eventWriteHalf env []

/-- Embedding of LocalPeer.handle_remote_peer_selector_event: the try
block, then `except OSError` calling self.disconnect(remote_peer, "OS
error") and `except Exception` calling self.disconnect(remote_peer,
"Exception"). Returns the disconnect invocations and the exception
escaping the method, which is always none. -/
def handle_remote_peer_selector_event (peer : Nat) (env : EventEnv) :
    List HandlerCall × Option ExnKind :=
  match eventTryBlock peer env with
  | (calls, none) => (calls, none)
  | (calls, some ExnKind.osError) =>
      (calls ++ [HandlerCall.disconnectCall peer "OS error"], none)
  | (calls, some ExnKind.otherExn) =>
      (calls ++ [HandlerCall.disconnectCall peer "Exception"], none)

/-- The two managers in self.managers (set in LocalPeer.__init__), in
list order: [self.network_manager, self.chain_manager]. -/
inductive ManagerId where
  | network
  | chain
  deriving DecidableEq, Repr

/-- The managers list as built by LocalPeer.__init__. -/
def managers : List ManagerId := [ManagerId.network, ManagerId.chain]

/-- Observable actions of one iteration of the body of LocalPeer.run. -/
inductive LoopAction where
  | stepManager (m : ManagerId) (t : Nat)
  | dispatchEvent
  deriving DecidableEq, Repr

/-- Input of one iteration of the LocalPeer.run loop body:
the time passed to the manager steps, whether each manager step calls
stop() (clearing self.running), and, for each event returned by
selector.select, whether handling it calls stop(). -/
structure IterationEnv where
  time : Nat
  netStepStops : Bool
  chainStepStops : Bool
  eventStops : List Bool

/-- Whether self.running survives the step of a given manager. -/
def managerKeepsRunning (env : IterationEnv) : ManagerId → Bool
  | ManagerId.network => !env.netStepStops
  | ManagerId.chain => !env.chainStepStops

/-- Embedding of LocalPeer.step_managers: for each manager in
self.managers, first check self.running (break when cleared), then call
manager.step(current_time). Returns the actions and the running flag
afterwards. -/
def step_managers (env : IterationEnv) (running : Bool) : List LoopAction × Bool :=
  managers.foldl
    (fun acc m =>
      if acc.2 then
        (acc.1 ++ [LoopAction.stepManager m env.time], managerKeepsRunning env m)
      else acc)
    ([], running)

/-- Embedding of the dispatch loop of LocalPeer.handle_selector_events:
for each ready event, first check self.running (break when cleared), then
dispatch it to the owning session (which may call stop()). -/
def handle_selector_events : List Bool → Bool → List LoopAction × Bool
  | [], r => ([], r)
  | stops :: rest, r =>
    if r then
      let tail := handle_selector_events rest (!stops)
      (LoopAction.dispatchEvent :: tail.1, tail.2)
    else ([], r)

/-- One iteration of the LocalPeer.run while-loop body:
self.step_managers(current_time) followed by
self.handle_selector_events(). -/
def run_iteration (env : IterationEnv) (running : Bool) : List LoopAction × Bool :=
  let afterManagers := step_managers env running
  let afterEvents := handle_selector_events env.eventStops afterManagers.2
  (afterManagers.1 ++ afterEvents.1, afterEvents.2)

/-- How many of the ready events are dispatched when the dispatch loop is
entered with self.running set: every event up to and including the first
one whose handler calls stop(). -/
def dispatchedCount : List Bool → Nat
  | [] => 0
  | stops :: rest => (if stops then 0 else dispatchedCount rest) + 1

/-- Observable events of a whole LocalPeer.run call: the actions of the
loop body iterations, the error log of the except clause, and the
selector.close() of the finally clause. -/
inductive RunEvent where
  | act (a : LoopAction)
  | logUncaught
  | selectorClose
  deriving DecidableEq, Repr

/-- Outcome of one execution of the loop body of LocalPeer.run: either it
completes (possibly having called stop(), clearing self.running), or an
exception escapes it after a prefix of its actions. -/
inductive IterOutcome where
  | normal (actions : List LoopAction) (stops : Bool)
  | raises (actionsBeforeRaise : List LoopAction)

/-- The while-loop of LocalPeer.run over a script of loop-body outcomes:
runs while self.running holds and the script lasts, stopping early when an
iteration clears the flag or raises. Returns the actions performed and
whether an exception escaped the loop. -/
def run_loop : Bool → List IterOutcome → List LoopAction × Bool
  | false, _ => ([], false)
  | true, [] => ([], false)
  | true, IterOutcome.normal acts stops :: rest =>
    let tail := run_loop (!stops) rest
    (acts ++ tail.1, tail.2)
  | true, IterOutcome.raises acts :: _ => (acts, true)

/-- Embedding of LocalPeer.run: self.running = True; try the while-loop;
except Exception: log the traceback (nothing re-raised); finally:
selector.close(). Returns the event trace and the exception escaping run,
which is always none. -/
def run (script : List IterOutcome) : List RunEvent × Option Unit :=
  let loop := run_loop true script
  let logged := if loop.2 then [RunEvent.logUncaught] else []
  ((loop.1.map RunEvent.act) ++ logged ++ [RunEvent.selectorClose], none)

/-- The MAX_SELECTOR_SIZE_BY_PLATFORM dict of local_peer.py. -/
def MAX_SELECTOR_SIZE_BY_PLATFORM : List (String × Nat) :=
  [("win32", 64), ("linux", 512)]

/-- The platform cap MAX_SELECTOR_SIZE_BY_PLATFORM.get(sys.platform, 64). -/
def maxSelectorMapSize (platform : String) : Nat :=
  (MAX_SELECTOR_SIZE_BY_PLATFORM.lookup platform).getD 64

/-- The observable calls of the connection-opening paths. -/
inductive ConnCall where
  | acceptConn
  | createSocket
  | selectorRegister (host : String) (port : Nat) (dir : Direction)
  | handlePeerConnected (host : String) (port : Nat) (dir : Direction)
  deriving DecidableEq, Repr

/-- The LocalPeer state these paths touch: the selector registration map
(as the list of registered descriptors, so len(selector.get_map()) is its
length) and the Network Manager active-peer view. -/
structure PeerLoopState where
  selectorMap : List (String × Nat × Direction)
  activePeers : List (String × Nat × Direction)
  deriving DecidableEq, Repr

/-- Embedding of LocalPeer.start_outgoing_connection: when
len(selector.get_map()) >= MAX_SELECTOR_SIZE_BY_PLATFORM.get(sys.platform,
64) it returns immediately; otherwise it creates a non-blocking socket,
registers it with the peer attached, and notifies
network_manager.handle_peer_connected. -/
def start_outgoing_connection (platform : String) (st : PeerLoopState)
    (host : String) (port : Nat) : PeerLoopState × List ConnCall :=
  if st.selectorMap.length ≥ maxSelectorMapSize platform then
    (st, [])
  else
    ({ selectorMap := st.selectorMap ++ [(host, port, Direction.outgoing)],
       activePeers := st.activePeers ++ [(host, port, Direction.outgoing)] },
     [ConnCall.createSocket,
      ConnCall.selectorRegister host port Direction.outgoing,
      ConnCall.handlePeerConnected host port Direction.outgoing])

/-- Embedding of LocalPeer.handle_incoming_connection: sock.accept(),
register the connection with the new INCOMING peer attached, and notify
network_manager.handle_peer_connected — with no check against
MAX_SELECTOR_SIZE_BY_PLATFORM anywhere on this path. -/
def handle_incoming_connection (st : PeerLoopState)
    (host : String) (port : Nat) : PeerLoopState × List ConnCall :=
  ({ selectorMap := st.selectorMap ++ [(host, port, Direction.incoming)],
     activePeers := st.activePeers ++ [(host, port, Direction.incoming)] },
   [ConnCall.acceptConn,
    ConnCall.selectorRegister host port Direction.incoming,
    ConnCall.handlePeerConnected host port Direction.incoming])

/-- Iterated incoming connections from a fixed remote host/port. -/
def applyIncoming : Nat → PeerLoopState → PeerLoopState
  | 0, st => st
  | n + 1, st => applyIncoming n (handle_incoming_connection st "10.0.0.1" 2412).1

/-- Modelled from the spec: SASHIMI_PER_COIN, the number of smallest
units per coin (skepticoin/params.py is not under src/). The spec pins
base = 10 coins, interval = 1,050,000, subsidy(31,499,999) = 1 smallest
unit and subsidy(31,500,000) = 0 under integer halving, which forces
10 * SASHIMI_PER_COIN to lie in [2^29, 2^30); the standard
100,000,000 units per coin satisfies this. -/
def SASHIMI_PER_COIN : Nat := 100000000

/-- Modelled from the spec: get_block_subsidy (skepticoin/consensus.py is
not under src/; only its test is). The subsidy starts from a fixed base of
10 coins and halves by integer division once per 1,050,000-block
interval, reaching zero once the height passes the terminal threshold. -/
def get_block_subsidy (height : Nat) : Nat :=
  (10 * SASHIMI_PER_COIN) / 2 ^ (height / 1050000)

/-- Reference to a previous output: source transaction hash (32 bytes)
plus output index (skepticoin.datatypes.OutputReference). -/
structure OutputReference where
  hash : List Nat
  index : Nat
  deriving DecidableEq, Repr

/-- The reserved null output reference marking a coinbase input:
32 zero bytes and index 0. -/
def nullReference : OutputReference :=
  { hash := List.replicate 32 0, index := 0 }

/-- The signature slot of an input (skepticoin.signing): a real signature
variant (SECP256k1Signature), the non-signature placeholder
(SignableEquivalent), or coinbase auxiliary data (CoinbaseData). -/
inductive SignatureSlot where
  | secp256k1 (sig : List Nat)
  | signableEquivalent
  | coinbaseData (data : List Nat)
  deriving DecidableEq, Repr

/-- Whether the slot holds an actual signature variant: only
SECP256k1Signature is one; the placeholder and coinbase data are not. -/
def SignatureSlot.isSignature : SignatureSlot → Bool
  | SignatureSlot.secp256k1 _ => true
  | SignatureSlot.signableEquivalent => false
  | SignatureSlot.coinbaseData _ => false

/-- Transaction input: an OutputReference plus a signature slot. -/
structure TxInput where
  output_reference : OutputReference
  signature : SignatureSlot
  deriving DecidableEq, Repr

/-- Transaction output: amount in smallest units plus recipient public
key (64 bytes, preceded by a type byte on the wire). -/
structure TxOutput where
  value : Nat
  public_key : List Nat
  deriving DecidableEq, Repr

/-- Transaction: ordered inputs and ordered outputs. -/
structure Transaction where
  inputs : List TxInput
  outputs : List TxOutput
  deriving DecidableEq, Repr

/-- Modelled from the spec: serialized byte size of a signature slot
(one type byte plus the payload; the exact wire schema is out of the
scope of the spec, only that a fixed serialization exists). -/
def SignatureSlot.byteSize : SignatureSlot → Nat
  | SignatureSlot.secp256k1 sig => 1 + sig.length
  | SignatureSlot.signableEquivalent => 1
  | SignatureSlot.coinbaseData data => 1 + data.length

/-- Modelled from the spec: serialized byte size of an input
(32-byte hash + 4-byte index + signature slot). -/
def TxInput.byteSize (i : TxInput) : Nat := 32 + 4 + i.signature.byteSize

/-- Modelled from the spec: serialized byte size of an output
(8-byte amount + type byte + public key). -/
def TxOutput.byteSize (o : TxOutput) : Nat := 8 + 1 + o.public_key.length

/-- Modelled from the spec: serialized byte size of a transaction
(4-byte input count, the inputs, 4-byte output count, the outputs). -/
def Transaction.byteSize (t : Transaction) : Nat :=
  4 + (t.inputs.map TxInput.byteSize).sum + 4 + (t.outputs.map TxOutput.byteSize).sum

/-- Modelled from the spec: MAX_BLOCK_SIZE, the fixed maximum serialized
size (skepticoin/params.py is not under src/; the value is not pinned by
the visible source and none of the claims depends on it). -/
def MAX_BLOCK_SIZE : Nat := 32 * 1024

/-- Modelled from the spec: the total coin supply bound; the subsidy
schedule (10 coins halving every 1,050,000 blocks) sums to just under
21,000,000 coins. -/
def TOTAL_SUPPLY : Nat := 21000000 * SASHIMI_PER_COIN

/-- Total declared output value of a transaction. -/
def Transaction.totalOutputValue (t : Transaction) : Nat :=
  (t.outputs.map TxOutput.value).sum

/-- The distinct error kinds of validate_non_coinbase_transaction_by_itself
pinned by the tests: "No inputs", "No outputs", "MAX_BLOCK_SIZE",
"output_reference referenced more than once", "null-reference in
non-coinbase transaction", "out of range", "Non-signature Signature class
used". -/
inductive TxValidationError where
  | noInputs
  | noOutputs
  | maxBlockSizeExceeded
  | duplicateOutputReference
  | nullReferenceInNonCoinbase
  | outputValueOutOfRange
  | nonSignatureSignatureClass
  deriving DecidableEq, Repr

/-- Modelled from the spec: validate_non_coinbase_transaction_by_itself
(skepticoin/consensus.py is not under src/; only its tests are). It
requires, in the order the spec lists the rules: at least one input; at
least one output; serialized size not above the fixed maximum; no
OutputReference used by more than one input; no null reference (the null
marker is coinbase-only); total output value inside the valid supply
range (positive and below the supply bound); and every signature slot an
actual signature variant, rejecting the placeholder. Each violation
raises the matching distinct error kind. -/
def validate_non_coinbase_transaction_by_itself (t : Transaction) :
    Except TxValidationError Unit :=
  if t.inputs.isEmpty then Except.error TxValidationError.noInputs
  else if t.outputs.isEmpty then Except.error TxValidationError.noOutputs
  else if MAX_BLOCK_SIZE < t.byteSize then
    Except.error TxValidationError.maxBlockSizeExceeded
  else if !(t.inputs.map TxInput.output_reference).Nodup then
    Except.error TxValidationError.duplicateOutputReference
  else if t.inputs.any (fun i => i.output_reference == nullReference) then
    Except.error TxValidationError.nullReferenceInNonCoinbase
  else if !(0 < t.totalOutputValue && t.totalOutputValue < TOTAL_SUPPLY) then
    Except.error TxValidationError.outputValueOutOfRange
  else if t.inputs.any (fun i => !i.signature.isSignature) then
    Except.error TxValidationError.nonSignatureSignatureClass
  else Except.ok ()

/-- The example public key of the tests: 64 bytes 0x78. -/
def examplePublicKey : List Nat := List.replicate 64 120

/-- The example signature of the tests: 64 bytes 0x79. -/
def exampleSignature : SignatureSlot := SignatureSlot.secp256k1 (List.replicate 64 121)

/-- The example output reference of the tests: 32 bytes 0x61, index 1. -/
def exampleReference : OutputReference := { hash := List.replicate 32 97, index := 1 }

/-! Theorems. -/

/-- Claim C1: for every list of connected peers passed to
DiskInterface.overwrite_peers, exactly the peers whose direction is
outgoing and whose handshake (hello) has been received are written to the
on-disk address book as (host, port, direction) tuples; when at least one
peer qualifies the file is rewritten in full in a single write (its new
content is exactly the qualifying tuples, whatever it held before, never a
partial update), and when no peer qualifies the file is removed
entirely. -/
theorem overwrite_peers_exact (peers : List ConnectedRemotePeer)
    (file : Option (List (String × Nat × Direction))) :
    (∀ p, qualifies p = true ↔
      (p.direction = Direction.outgoing ∧ p.hello_received = true)) ∧
    (peers.filter qualifies ≠ [] →
      overwrite_peers peers file =
        (Except.ok (), some ((peers.filter qualifies).map peerTuple))) ∧
    (peers.filter qualifies = [] → (overwrite_peers peers file).2 = none) := by
  refine ⟨?_, ?_, ?_⟩
  · intro p
    simp [qualifies]
  · intro hne
    have hq : ((peers.filter qualifies).map peerTuple).isEmpty = false := by
      simp [List.isEmpty_iff, hne]
    simp [overwrite_peers, hq]
  · intro hq
    simp [overwrite_peers, hq]
    cases file <;> simp

/-- Claim C1 witness: a concrete two-peer list in which only the outgoing,
hello-received peer is persisted, and a concrete list with no qualifying
peer after which no file remains. -/
theorem overwrite_peers_exact_witness :
    (overwrite_peers
      [{ host := "a", port := 1, direction := Direction.outgoing, hello_received := true },
       { host := "b", port := 2, direction := Direction.incoming, hello_received := true }]
      (some []) =
      (Except.ok (), some [("a", 1, Direction.outgoing)])) ∧
    (overwrite_peers
      [{ host := "b", port := 2, direction := Direction.incoming, hello_received := true }]
      (some [("a", 1, Direction.outgoing)])).2 = none := by
  constructor
  · have h := (overwrite_peers_exact
      [{ host := "a", port := 1, direction := Direction.outgoing, hello_received := true },
       { host := "b", port := 2, direction := Direction.incoming, hello_received := true }]
      (some [])).2.1 (by decide)
    rw [h]
    rfl
  · exact (overwrite_peers_exact
      [{ host := "b", port := 2, direction := Direction.incoming, hello_received := true }]
      (some [("a", 1, Direction.outgoing)])).2.2 (by decide)

/-- Claim C8: when DiskInterface.overwrite_peers is called with a list in
which no peer is both outgoing and hello-received, it unconditionally
calls os.remove on peers.json, so when that file does not exist the call
raises FileNotFoundError: the remove-when-empty path is not a no-op on a
missing file. -/
theorem overwrite_peers_missing_file_raises (peers : List ConnectedRemotePeer)
    (h : peers.filter qualifies = []) :
    overwrite_peers peers none = (Except.error PyError.fileNotFoundError, none) := by
  simp [overwrite_peers, h]

/-- Claim C8 witness: a single connected-but-incoming peer and no file on
disk make overwrite_peers raise FileNotFoundError. -/
theorem overwrite_peers_missing_file_raises_witness :
    overwrite_peers
      [{ host := "b", port := 2, direction := Direction.incoming, hello_received := true }]
      none = (Except.error PyError.fileNotFoundError, none) :=
  overwrite_peers_missing_file_raises
    [{ host := "b", port := 2, direction := Direction.incoming, hello_received := true }]
    (by decide)

/-- The write half of the try block never adds disconnect calls of its
own: it passes through the accumulator from the read half. -/
theorem eventWriteHalf_fst (env : EventEnv) (acc : List HandlerCall) :
    (eventWriteHalf env acc).1 = acc := by
  unfold eventWriteHalf
  cases env.maskWrite
  · simp
  · cases env.canSendExn <;> simp

/-- Every disconnect invocation made by the try block targets the peer
whose event is being handled. -/
theorem eventTryBlock_targets_peer (peer : Nat) (env : EventEnv) :
    ∀ c ∈ (eventTryBlock peer env).1, ∃ r, c = HandlerCall.disconnectCall peer r := by
  intro c hc
  unfold eventTryBlock at hc
  rcases hr : env.maskRead with _ | _ <;> rw [hr] at hc <;> simp at hc
  · rw [eventWriteHalf_fst] at hc
    simp at hc
  · rcases he : env.recvExn with _ | e <;> rw [he] at hc <;> simp at hc
    rcases hn : env.recvNonEmpty with _ | _ <;> rw [hn] at hc <;> simp at hc
    · rw [eventWriteHalf_fst] at hc
      simp at hc
      exact ⟨"connection closed remotely", hc⟩
    · rcases hd : env.receiveDataExn with _ | e <;> rw [hd] at hc <;> simp at hc
      rw [eventWriteHalf_fst] at hc
      simp at hc

/-- Claim C2: every exception raised while
LocalPeer.handle_remote_peer_selector_event processes a ready peer —
OSError or any other exception — is caught inside that method and results
in one extra LocalPeer.disconnect invocation on exactly that peer; every
disconnect invocation the method makes targets that peer; and no
exception propagates out of the method to the event loop. -/
theorem handle_remote_peer_selector_event_catches_all (peer : Nat) (env : EventEnv) :
    (handle_remote_peer_selector_event peer env).2 = none ∧
    (∀ e, (eventTryBlock peer env).2 = some e →
      ∃ r, (handle_remote_peer_selector_event peer env).1 =
        (eventTryBlock peer env).1 ++ [HandlerCall.disconnectCall peer r]) ∧
    (∀ c ∈ (handle_remote_peer_selector_event peer env).1,
      ∃ r, c = HandlerCall.disconnectCall peer r) := by
  refine ⟨?_, ?_, ?_⟩
  · unfold handle_remote_peer_selector_event
    rcases h : eventTryBlock peer env with ⟨calls, e⟩
    rcases e with _ | e
    · rfl
    · cases e <;> rfl
  · intro e he
    unfold handle_remote_peer_selector_event
    rcases h : eventTryBlock peer env with ⟨calls, e2⟩
    rw [h] at he
    simp at he
    subst he
    cases e
    · exact ⟨"OS error", rfl⟩
    · exact ⟨"Exception", rfl⟩
  · intro c hc
    unfold handle_remote_peer_selector_event at hc
    rcases h : eventTryBlock peer env with ⟨calls, e⟩
    have hcalls := eventTryBlock_targets_peer peer env
    rw [h] at hc hcalls
    rcases e with _ | e
    · exact hcalls c hc
    · cases e <;> simp at hc <;>
        rcases hc with hc | hc
      · exact hcalls c hc
      · exact ⟨"OS error", hc⟩
      · exact hcalls c hc
      · exact ⟨"Exception", hc⟩

/-- Claim C2 witness: a read event whose handle_receive_data raises a
(non-OS) exception is converted into a single disconnect of that peer and
nothing propagates. -/
theorem handle_remote_peer_selector_event_catches_all_witness :
    (handle_remote_peer_selector_event 7
      { maskRead := true, maskWrite := false, recvExn := none, recvNonEmpty := true,
        receiveDataExn := some ExnKind.otherExn, canSendExn := none }).2 = none ∧
    ∃ r, (handle_remote_peer_selector_event 7
      { maskRead := true, maskWrite := false, recvExn := none, recvNonEmpty := true,
        receiveDataExn := some ExnKind.otherExn, canSendExn := none }).1 =
      (eventTryBlock 7
        { maskRead := true, maskWrite := false, recvExn := none, recvNonEmpty := true,
          receiveDataExn := some ExnKind.otherExn, canSendExn := none }).1 ++
      [HandlerCall.disconnectCall 7 r] := by
  constructor
  · exact (handle_remote_peer_selector_event_catches_all 7
      { maskRead := true, maskWrite := false, recvExn := none, recvNonEmpty := true,
        receiveDataExn := some ExnKind.otherExn, canSendExn := none }).1
  · exact (handle_remote_peer_selector_event_catches_all 7
      { maskRead := true, maskWrite := false, recvExn := none, recvNonEmpty := true,
        receiveDataExn := some ExnKind.otherExn, canSendExn := none }).2.1
      ExnKind.otherExn (by rfl)

/-- Claim C9: in LocalPeer.disconnect, unregister, close and
handle_peer_disconnected run inside one exception-swallowing try block in
that order, so when selector.unregister raises, the socket is not closed,
NetworkManager.handle_peer_disconnected is not invoked, the exception is
swallowed, and the peer remains in the Network Manager active-peer
view. -/
theorem disconnect_unregister_failure_keeps_peer (peer : Nat) (env : DisconnectEnv)
    (active : List Nat) (e : ExnKind) (h : env.unregisterExn = some e) :
    (disconnect peer env).1 = [] ∧
    SysCall.sockClose peer ∉ (disconnect peer env).1 ∧
    SysCall.handlePeerDisconnected peer ∉ (disconnect peer env).1 ∧
    (disconnect peer env).2 = none ∧
    applyCallsToActivePeers active (disconnect peer env).1 = active := by
  unfold disconnect
  rw [h]
  exact ⟨rfl, by simp, by simp, rfl, rfl⟩

/-- Claim C9 witness: with a raising unregister, a concrete disconnect
leaves the two-peer active view untouched and swallows the exception. -/
theorem disconnect_unregister_failure_keeps_peer_witness :
    (disconnect 3 ⟨some ExnKind.osError, none, none⟩).1 = [] ∧
    SysCall.sockClose 3 ∉ (disconnect 3 ⟨some ExnKind.osError, none, none⟩).1 ∧
    SysCall.handlePeerDisconnected 3 ∉ (disconnect 3 ⟨some ExnKind.osError, none, none⟩).1 ∧
    (disconnect 3 ⟨some ExnKind.osError, none, none⟩).2 = none ∧
    applyCallsToActivePeers [3, 8] (disconnect 3 ⟨some ExnKind.osError, none, none⟩).1 = [3, 8] :=
  disconnect_unregister_failure_keeps_peer 3 ⟨some ExnKind.osError, none, none⟩
    [3, 8] ExnKind.osError rfl

/-- With the stop flag already cleared, the dispatch loop dispatches
nothing. -/
theorem handle_selector_events_stopped (evs : List Bool) :
    handle_selector_events evs false = ([], false) := by
  cases evs <;> simp [handle_selector_events]

/-- The dispatch loop entered with self.running set dispatches exactly
the events up to and including the first stopping one, and emits nothing
but dispatch actions. -/
theorem handle_selector_events_replicate (evs : List Bool) :
    (handle_selector_events evs true).1 =
      List.replicate (dispatchedCount evs) LoopAction.dispatchEvent := by
  induction evs with
  | nil => rfl
  | cons stops rest ih =>
    cases stops
    · simpa [handle_selector_events, dispatchedCount, List.replicate_succ] using ih
    · simp [handle_selector_events, dispatchedCount, List.replicate_succ,
        handle_selector_events_stopped]

/-- Claim C5: in every iteration of the LocalPeer.run loop entered with
the stop flag unset and during which neither manager step clears it,
NetworkManager.step(current_time) and ChainManager.step(current_time)
each run exactly once, in that fixed order, and both complete before any
of the selector readiness events of that iteration is dispatched: the
iteration trace is the network step, then the chain step, then only
dispatch actions. -/
theorem run_iteration_managers_first (env : IterationEnv)
    (h1 : env.netStepStops = false) (h2 : env.chainStepStops = false) :
    (run_iteration env true).1 =
      LoopAction.stepManager ManagerId.network env.time ::
      LoopAction.stepManager ManagerId.chain env.time ::
      List.replicate (dispatchedCount env.eventStops) LoopAction.dispatchEvent := by
  have hstep : step_managers env true =
      ([LoopAction.stepManager ManagerId.network env.time,
        LoopAction.stepManager ManagerId.chain env.time], true) := by
    simp [step_managers, managers, managerKeepsRunning, h1, h2]
  simp [run_iteration, hstep, handle_selector_events_replicate]

/-- Claim C5 witness: a concrete iteration at time 42 with three ready
events, none of which stops the loop. -/
theorem run_iteration_managers_first_witness :
    (run_iteration ⟨42, false, false, [false, false, false]⟩ true).1 =
      LoopAction.stepManager ManagerId.network 42 ::
      LoopAction.stepManager ManagerId.chain 42 ::
      List.replicate 3 LoopAction.dispatchEvent := by
  have h := run_iteration_managers_first ⟨42, false, false, [false, false, false]⟩ rfl rfl
  simpa [dispatchedCount] using h

/-- Claim C7: for every execution of LocalPeer.run, no exception
propagates out of run; the event trace is exactly the loop-body actions,
followed by exactly one uncaught-exception log precisely when an
exception escaped the loop body (caught once by the except clause), and
ends with selector.close from the finally clause; in particular the
selector is closed exactly once, after the actions of the in-flight iteration
and in every exit path (normal stop or exception). -/
theorem run_close_once (script : List IterOutcome) :
    (run script).2 = none ∧
    (run script).1 =
      ((run_loop true script).1.map RunEvent.act) ++
      (if (run_loop true script).2 then [RunEvent.logUncaught] else []) ++
      [RunEvent.selectorClose] ∧
    List.count RunEvent.selectorClose (run script).1 = 1 ∧
    List.count RunEvent.logUncaught (run script).1 =
      (if (run_loop true script).2 then 1 else 0) := by
  refine ⟨rfl, ?_, ?_, ?_⟩
  · unfold run
    cases h : (run_loop true script).2 <;> simp [h]
  · unfold run
    rw [List.count_append, List.count_append]
    have hmap : List.count RunEvent.selectorClose
        ((run_loop true script).1.map RunEvent.act) = 0 := by
      rw [List.count_eq_zero]
      intro hmem
      rcases List.mem_map.mp hmem with ⟨a, _, ha⟩
      exact absurd ha (by simp)
    cases h : (run_loop true script).2 <;> simp [hmap]
  · unfold run
    rw [List.count_append, List.count_append]
    have hmap : List.count RunEvent.logUncaught
        ((run_loop true script).1.map RunEvent.act) = 0 := by
      rw [List.count_eq_zero]
      intro hmem
      rcases List.mem_map.mp hmem with ⟨a, _, ha⟩
      exact absurd ha (by simp)
    cases h : (run_loop true script).2 <;> simp [hmap]

/-- Claim C6: whenever the selector registration map already holds at
least the platform-dependent cap of descriptors (512 on linux, 64 on
win32, 64 for unknown platforms), LocalPeer.start_outgoing_connection
returns without creating a socket, registering a descriptor, or notifying
the Network Manager: the state is unchanged (no existing peer evicted)
and no call is made. -/
theorem start_outgoing_connection_refused_at_cap (platform : String)
    (st : PeerLoopState) (host : String) (port : Nat)
    (h : maxSelectorMapSize platform ≤ st.selectorMap.length) :
    start_outgoing_connection platform st host port = (st, []) ∧
    maxSelectorMapSize "linux" = 512 ∧
    maxSelectorMapSize "win32" = 64 ∧
    (platform ≠ "linux" → platform ≠ "win32" → maxSelectorMapSize platform = 64) := by
  refine ⟨?_, by decide, by decide, ?_⟩
  · simp [start_outgoing_connection, h]
  · intro hl hw
    have h1 : (platform == "linux") = false := beq_eq_false_iff_ne.mpr hl
    have h2 : (platform == "win32") = false := beq_eq_false_iff_ne.mpr hw
    simp [maxSelectorMapSize, MAX_SELECTOR_SIZE_BY_PLATFORM, List.lookup, h1, h2]

/-- Claim C6 witness: on an unknown platform with 64 registered
descriptors, a concrete outbound attempt is refused and changes
nothing. -/
theorem start_outgoing_connection_refused_at_cap_witness :
    start_outgoing_connection "sunos"
      ⟨List.replicate 64 ("h", 1, Direction.incoming), []⟩ "x" 9 =
      (⟨List.replicate 64 ("h", 1, Direction.incoming), []⟩, []) ∧
    maxSelectorMapSize "sunos" = 64 :=
  have h := start_outgoing_connection_refused_at_cap "sunos"
    ⟨List.replicate 64 ("h", 1, Direction.incoming), []⟩ "x" 9 (by decide)
  ⟨h.1, h.2.2.2 (by decide) (by decide)⟩

/-- Every platform cap is at most 512: the map holds 64 and 512 and the
default is 64. -/
theorem maxSelectorMapSize_le (platform : String) :
    maxSelectorMapSize platform ≤ 512 := by
  simp only [maxSelectorMapSize, MAX_SELECTOR_SIZE_BY_PLATFORM, List.lookup]
  split
  · simp
  · split
    · simp
    · simp

/-- Iterated incoming connections grow the registration map by one
each. -/
theorem applyIncoming_length (n : Nat) (st : PeerLoopState) :
    (applyIncoming n st).selectorMap.length = st.selectorMap.length + n := by
  induction n generalizing st with
  | zero => rfl
  | succ k ih =>
    rw [applyIncoming, ih]
    simp [handle_incoming_connection]
    omega

/-- Claim C10: LocalPeer.handle_incoming_connection accepts and registers
every incoming connection with no comparison against
MAX_SELECTOR_SIZE_BY_PLATFORM — whatever the current registration map
size, it grows by one and the accept/register/notify calls are made — so
on every platform some sequence of incoming connections (513 of them from
the empty state) pushes the number of tracked descriptors past the
cap. -/
theorem handle_incoming_connection_unchecked (platform : String)
    (st : PeerLoopState) (host : String) (port : Nat) :
    ((handle_incoming_connection st host port).1.selectorMap.length =
      st.selectorMap.length + 1) ∧
    ((handle_incoming_connection st host port).2 =
      [ConnCall.acceptConn,
       ConnCall.selectorRegister host port Direction.incoming,
       ConnCall.handlePeerConnected host port Direction.incoming]) ∧
    ∃ n, maxSelectorMapSize platform <
      (applyIncoming n ⟨[], []⟩).selectorMap.length := by
  refine ⟨by simp [handle_incoming_connection], rfl, 513, ?_⟩
  rw [applyIncoming_length]
  have h := maxSelectorMapSize_le platform
  simp
  omega

/-- Claim C3: get_block_subsidy is non-increasing in the height, is
constant within each 1,050,000-block interval and halves by integer
division exactly at each interval boundary from a base of 10 coins, is
zero for every height at or above 31,500,000, and takes the pinned
values subsidy(0) = subsidy(1,049,999) = 10 coins,
subsidy(1,050,000) = 5 coins, subsidy(31,499,999) = 1 smallest unit,
subsidy(31,500,000) = 0. -/
theorem get_block_subsidy_schedule :
    (∀ h1 h2 : Nat, h1 ≤ h2 → get_block_subsidy h2 ≤ get_block_subsidy h1) ∧
    (∀ h : Nat, get_block_subsidy h = get_block_subsidy (1050000 * (h / 1050000))) ∧
    (∀ k : Nat, get_block_subsidy ((k + 1) * 1050000) =
      get_block_subsidy (k * 1050000) / 2) ∧
    (∀ h : Nat, get_block_subsidy h = (10 * SASHIMI_PER_COIN) / 2 ^ (h / 1050000)) ∧
    (∀ h : Nat, 31500000 ≤ h → get_block_subsidy h = 0) ∧
    get_block_subsidy 0 = 10 * SASHIMI_PER_COIN ∧
    get_block_subsidy 1049999 = 10 * SASHIMI_PER_COIN ∧
    get_block_subsidy 1050000 = 5 * SASHIMI_PER_COIN ∧
    get_block_subsidy 31499999 = 1 ∧
    get_block_subsidy 31500000 = 0 := by
  refine ⟨?_, ?_, ?_, fun h => rfl, ?_, by decide, by decide, by decide, by decide, by decide⟩
  · intro h1 h2 hle
    unfold get_block_subsidy
    exact Nat.div_le_div_left
      (Nat.pow_le_pow_right (by decide) (Nat.div_le_div_right hle))
      (Nat.pos_pow_of_pos _ (by decide))
  · intro h
    unfold get_block_subsidy
    rw [Nat.mul_div_cancel_left _ (by decide : (0:Nat) < 1050000)]
  · intro k
    unfold get_block_subsidy
    rw [Nat.mul_div_cancel _ (by decide : (0:Nat) < 1050000),
      Nat.mul_div_cancel _ (by decide : (0:Nat) < 1050000),
      pow_succ, ← Nat.div_div_eq_div_mul]
  · intro h hge
    unfold get_block_subsidy
    apply Nat.div_eq_of_lt
    calc 10 * SASHIMI_PER_COIN < 2 ^ 30 := by decide
    _ ≤ 2 ^ (h / 1050000) := by
      apply Nat.pow_le_pow_right (by decide)
      rw [Nat.le_div_iff_mul_le (by decide : (0:Nat) < 1050000)]
      omega

/-- Claim C3 witness: concrete instances of the quantified parts —
monotonicity from height 0 to 1,050,000, interval constancy at 1,500,000,
the halving step at the second boundary, and vanishing at
31,500,001. -/
theorem get_block_subsidy_schedule_witness :
    get_block_subsidy 1050000 ≤ get_block_subsidy 0 ∧
    get_block_subsidy 1500000 = get_block_subsidy 1050000 ∧
    get_block_subsidy 2100000 = get_block_subsidy 1050000 / 2 ∧
    get_block_subsidy 31500001 = 0 :=
  ⟨get_block_subsidy_schedule.1 0 1050000 (by decide),
   by
    have h := get_block_subsidy_schedule.2.1 1500000
    simpa using h,
   by
    have h := get_block_subsidy_schedule.2.2.1 1
    simpa using h,
   get_block_subsidy_schedule.2.2.2.2.1 31500001 (by decide)⟩

/-- Claim C4: validate_non_coinbase_transaction_by_itself raises the
matching distinct error kind for each rejected shape, the checks applying
in the listed order: zero inputs; zero outputs; serialized size over the
fixed maximum; a duplicate OutputReference across the inputs; a null
(coinbase-marker) output reference; total output value outside the valid
coin-supply range; and a non-signature placeholder in a signature
slot. -/
theorem validate_non_coinbase_rejections (t : Transaction) :
    (t.inputs = [] →
      validate_non_coinbase_transaction_by_itself t =
        Except.error TxValidationError.noInputs) ∧
    (t.inputs ≠ [] → t.outputs = [] →
      validate_non_coinbase_transaction_by_itself t =
        Except.error TxValidationError.noOutputs) ∧
    (t.inputs ≠ [] → t.outputs ≠ [] → MAX_BLOCK_SIZE < t.byteSize →
      validate_non_coinbase_transaction_by_itself t =
        Except.error TxValidationError.maxBlockSizeExceeded) ∧
    (t.inputs ≠ [] → t.outputs ≠ [] → t.byteSize ≤ MAX_BLOCK_SIZE →
      ¬ (t.inputs.map TxInput.output_reference).Nodup →
      validate_non_coinbase_transaction_by_itself t =
        Except.error TxValidationError.duplicateOutputReference) ∧
    (t.inputs ≠ [] → t.outputs ≠ [] → t.byteSize ≤ MAX_BLOCK_SIZE →
      (t.inputs.map TxInput.output_reference).Nodup →
      (∃ i ∈ t.inputs, i.output_reference = nullReference) →
      validate_non_coinbase_transaction_by_itself t =
        Except.error TxValidationError.nullReferenceInNonCoinbase) ∧
    (t.inputs ≠ [] → t.outputs ≠ [] → t.byteSize ≤ MAX_BLOCK_SIZE →
      (t.inputs.map TxInput.output_reference).Nodup →
      (∀ i ∈ t.inputs, i.output_reference ≠ nullReference) →
      ¬ (0 < t.totalOutputValue ∧ t.totalOutputValue < TOTAL_SUPPLY) →
      validate_non_coinbase_transaction_by_itself t =
        Except.error TxValidationError.outputValueOutOfRange) ∧
    (t.inputs ≠ [] → t.outputs ≠ [] → t.byteSize ≤ MAX_BLOCK_SIZE →
      (t.inputs.map TxInput.output_reference).Nodup →
      (∀ i ∈ t.inputs, i.output_reference ≠ nullReference) →
      0 < t.totalOutputValue → t.totalOutputValue < TOTAL_SUPPLY →
      (∃ i ∈ t.inputs, i.signature.isSignature = false) →
      validate_non_coinbase_transaction_by_itself t =
        Except.error TxValidationError.nonSignatureSignatureClass) := by
  refine ⟨?_, ?_, ?_, ?_, ?_, ?_, ?_⟩
  · intro h1
    simp [validate_non_coinbase_transaction_by_itself, h1]
  · intro h1 h2
    simp [validate_non_coinbase_transaction_by_itself, h1, h2]
  · intro h1 h2 h3
    simp [validate_non_coinbase_transaction_by_itself, h1, h2, h3]
  · intro h1 h2 h3 h4
    have h3' := Nat.not_lt.mpr h3
    simp [validate_non_coinbase_transaction_by_itself, h1, h2, h3', h4]
  · intro h1 h2 h3 h4 h5
    have h3' := Nat.not_lt.mpr h3
    simp only [validate_non_coinbase_transaction_by_itself]
    rw [if_neg (by simp [h1]), if_neg (by simp [h2]), if_neg (by simp [h3']),
      if_neg (by simp [h4]), if_pos (by simp [List.any_eq_true]; exact h5)]
  · intro h1 h2 h3 h4 h5 h6
    have h3' := Nat.not_lt.mpr h3
    simp only [validate_non_coinbase_transaction_by_itself]
    rw [if_neg (by simp [h1]), if_neg (by simp [h2]), if_neg (by simp [h3']),
      if_neg (by simp [h4]),
      if_neg (by simp [List.any_eq_true]; exact h5),
      if_pos (by simp; omega)]
  · intro h1 h2 h3 h4 h5 h6 h7 h8
    have h3' := Nat.not_lt.mpr h3
    simp only [validate_non_coinbase_transaction_by_itself]
    rw [if_neg (by simp [h1]), if_neg (by simp [h2]), if_neg (by simp [h3']),
      if_neg (by simp [h4]),
      if_neg (by simp [List.any_eq_true]; exact h5),
      if_neg (by simp [h6, h7]),
      if_pos (by simp [List.any_eq_true]; exact h8)]

/-- Claim C4 witness: three of the test transactions — no inputs, a null
output reference, and the signature placeholder — are each rejected with
the matching error kind. -/
theorem validate_non_coinbase_rejections_witness :
    validate_non_coinbase_transaction_by_itself
      { inputs := [],
        outputs := [{ value := 30, public_key := examplePublicKey }] } =
      Except.error TxValidationError.noInputs ∧
    validate_non_coinbase_transaction_by_itself
      { inputs := [{ output_reference := nullReference,
                     signature := exampleSignature }],
        outputs := [{ value := 30, public_key := examplePublicKey }] } =
      Except.error TxValidationError.nullReferenceInNonCoinbase ∧
    validate_non_coinbase_transaction_by_itself
      { inputs := [{ output_reference := exampleReference,
                     signature := SignatureSlot.signableEquivalent }],
        outputs := [{ value := 30, public_key := examplePublicKey }] } =
      Except.error TxValidationError.nonSignatureSignatureClass :=
  ⟨(validate_non_coinbase_rejections _).1 rfl,
   (validate_non_coinbase_rejections _).2.2.2.2.1 (by decide) (by decide)
     (by decide) (by decide)
     ⟨{ output_reference := nullReference, signature := exampleSignature },
      by decide, rfl⟩,
   (validate_non_coinbase_rejections _).2.2.2.2.2.2 (by decide) (by decide)
     (by decide) (by decide) (by decide) (by decide) (by decide)
     ⟨{ output_reference := exampleReference,
        signature := SignatureSlot.signableEquivalent },
      by decide, rfl⟩⟩

end Skepticoin
